import Mathlib

/-!
Verification of the `app-manager` supervisor specification against a
shallow embedding of its Rust source.  The embedding covers the
in-process coordination layer: the single-slot command channel
(`src/utils.rs`), the update pipeline (`src/server/update.rs`), the
build pipeline (`src/server/build.rs`), the reboot scheduler and its
key-availability interlock (`src/server/reboot.rs`), the API-key
authentication layer (`src/api/utils.rs`), and the UTC-offset parser.
Pure functions become Lean functions; stateful code becomes explicit
state passing; fallible code returns `Option`/`Except`; external
processes and peer calls become environment records of their observed
results.
-/

namespace AppManager

/-! ### Definitions: the shallow embedding of the source -/

/-- Error type of the in-progress command channel
(`InProgressCmdChannelError`, utils.rs lines 86-94). -/
inductive InProgressCmdChannelError where
  | AlreadyLocked
  | CommandInProgress
  | ChannelBroken
deriving DecidableEq, Repr

/-- State of one `InProgressChannel`: the shared `message_storage`
mutex content (`slot`), whether the receiver currently holds the owned
mutex guard (`guardHeld`, i.e. an `InProgressContainer` is alive), how
many wake units sit in the capacity-1 notify queue (`notifySignals`),
and whether the `InProgressReceiver` end is still alive
(`receiverAlive`). -/
structure ChannelState (T : Type) where
  slot : Option T
  guardHeld : Bool
  notifySignals : Nat
  receiverAlive : Bool
deriving DecidableEq, Repr

/-- `InProgressChannel::create` (utils.rs lines 172-189): a fresh
channel has an empty slot, no guard held, an empty notify queue and a
live receiver. -/
def InProgressChannel.create (T : Type) : ChannelState T :=
  { slot := none, guardHeld := false, notifySignals := 0, receiverAlive := true }

/-- `InProgressSender::send_message` (utils.rs lines 104-125).
`try_lock` fails with `AlreadyLocked` when the mutex is held (the
receiver is inside its guard); then an occupied slot fails with
`CommandInProgress`; otherwise the message is placed in the slot, the
guard is dropped, and one wake unit is sent on the notify queue — which
fails with `ChannelBroken` when the receiver has been dropped, the
message having already been placed. -/
def send_message {T : Type} (s : ChannelState T) (message : T) :
    Except InProgressCmdChannelError Unit × ChannelState T :=
  if s.guardHeld then
    (Except.error InProgressCmdChannelError.AlreadyLocked, s)
  else if s.slot.isSome then
    (Except.error InProgressCmdChannelError.CommandInProgress, s)
  else
    let placed : ChannelState T := { s with slot := some message }
    if s.receiverAlive then
      (Except.ok (), { placed with notifySignals := placed.notifySignals + 1 })
    else
      (Except.error InProgressCmdChannelError.ChannelBroken, placed)

/-- `InProgressReceiver::lock_message_container` (utils.rs lines
144-148): the receiver takes the owned guard over the slot. -/
def lock_message_container {T : Type} (s : ChannelState T) : ChannelState T :=
  { s with guardHeld := true }

/-- `impl Drop for InProgressContainer` (utils.rs lines 162-166):
dropping the receiver's guard writes `None` into the slot and releases
the mutex. -/
def dropContainer {T : Type} (s : ChannelState T) : ChannelState T :=
  { s with slot := none, guardHeld := false }

/-- Number of messages currently held in the slot. -/
def slotMessages {T : Type} (s : ChannelState T) : Nat :=
  match s.slot with
  | none => 0
  | some _ => 1

/-- HTTP outcome of `authenticate_with_api_key`: `ok` stands for
running the inner handler, `badRequest` for `StatusCode::BAD_REQUEST`
(400), `locked` for `StatusCode::LOCKED` (423). -/
inductive AuthOutcome where
  | ok
  | badRequest
  | locked
deriving DecidableEq, Repr

/-- `authenticate_with_api_key` (api/utils.rs lines 22-48) as a
function of the configured key, the current `API_SECURITY_LOCK` value,
and the request's `x-api-key` header — `none` when the header is
missing, `some none` when present but not decodable as a string,
`some (some k)` when it decodes to the key string `k`.  Returns the
response outcome together with the lock value after the request.  The
header presence and decode checks run before the lock is read; a
mismatched key stores `true` into the lock; nothing ever stores
`false`. -/
def authenticate_with_api_key (configKey : String) (lock : Bool)
    (header : Option (Option String)) : AuthOutcome × Bool :=
  match header with
  | none => (AuthOutcome.badRequest, lock)
  | some none => (AuthOutcome.badRequest, lock)
  | some (some keyStr) =>
    if lock then
      (AuthOutcome.locked, lock)
    else if configKey = keyStr then
      (AuthOutcome.ok, lock)
    else
      (AuthOutcome.locked, true)

/-- `MountMode` (server/mount.rs lines 37-45). -/
inductive MountMode where
  | NotMounted
  | MountedWithRemoteKey
  | MountedWithLocalKey
  | MountedWithDefaultKey
  | MountedWithUnknownKey
deriving DecidableEq, Repr

/-- Observed results of the external interactions of `run_reboot`:
the current mount mode read from the shared state, whether
`ApiManager::get_encryption_key` succeeds against the remote key
provider, and whether the `sudo reboot` command exits successfully. -/
structure RebootEnv where
  mountMode : MountMode
  keyFetchSucceeds : Bool
  rebootCommandSucceeds : Bool
deriving DecidableEq, Repr

/-- Mutable state visible to the reboot manager: the
`REBOOT_ON_NEXT_CHECK` latch (reboot.rs line 24; the spec's
`RebootPending`). -/
structure RebootState where
  rebootOnNextCheck : Bool
deriving DecidableEq, Repr

/-- Observable trace of one `run_reboot` attempt: whether the remote
key fetch was attempted, whether `sudo reboot` was invoked, and
whether the attempt as a whole succeeded. -/
structure RebootOutcome where
  keyFetchAttempted : Bool
  rebootInvoked : Bool
  ok : Bool
deriving DecidableEq, Repr

/-- `RebootManager::run_reboot` (reboot.rs lines 209-235): when the
mount mode is `MountedWithRemoteKey` it first fetches the data
encryption key from the remote key provider and returns the error
early on failure, before any reboot command; every other mode skips
the check.  Then it invokes `sudo reboot`.  The function never writes
`REBOOT_ON_NEXT_CHECK`, so the latch is returned unchanged. -/
def run_reboot (env : RebootEnv) (s : RebootState) :
    RebootOutcome × RebootState :=
  match env.mountMode with
  | MountMode.MountedWithRemoteKey =>
    if env.keyFetchSucceeds then
      (⟨true, true, env.rebootCommandSucceeds⟩, s)
    else
      (⟨true, false, false⟩, s)
  | _ => (⟨false, true, env.rebootCommandSucceeds⟩, s)

/-- Value that `str::parse::<i8>` assigns to one ASCII digit
character (codes 48-57); `none` when the character is not a digit. -/
def charDigit (c : Char) : Option Nat :=
  if 48 ≤ c.toNat ∧ c.toNat ≤ 57 then some (c.toNat - 48) else none

/-- `str::parse::<i8>` on a nonempty character list, in the
nonnegative form the code reaches (the sign character was stripped
before parsing): fails on any non-digit character and on overflow past
`i8::MAX = 127`. -/
def parse_i8_digits (cs : List Char) : Option Nat :=
  match cs with
  | [] => none
  | _ =>
    (cs.foldl (fun acc c =>
      acc.bind fun n => (charDigit c).map fun d => n * 10 + d) (some 0)).bind
      fun n => if n ≤ 127 then some n else none

/-- `RebootManager::get_utc_offset_hours` (reboot.rs lines 274-313)
applied to the stdout of `date +%z` as a character list: the
multiplier is `-1` exactly when the first character is `-`, the hour
digits are the two characters following the sign with their leading
zeros stripped (an all-zero string parses as `0`), and the minute
characters are never read. -/
def get_utc_offset_hours (output : List Char) : Option Int :=
  let multiplier : Int :=
    match output.head? with
    | some c => if c = '-' then -1 else 1
    | none => 1
  let hoursNumberString := (output.drop 1).take 2
  let hoursNumberStr := hoursNumberString.dropWhile (fun c => c = '0')
  match hoursNumberStr with
  | [] => some (0 * multiplier)
  | cs => (parse_i8_digits cs).map fun hours => (hours : Int) * multiplier

/-- `BuildInfo` (crates/manager_model/src/manager.rs lines 84-92):
four string fields, equal iff all four fields match.  `BuildInfo.empty`
is `Default::default()`, the all-empty sentinel meaning "no prior
record". -/
structure BuildInfo where
  commit_sha : String
  name : String
  timestamp : String
  build_info : String
deriving DecidableEq, Repr

/-- `BuildInfo::default()`: all four fields empty. -/
def BuildInfo.empty : BuildInfo :=
  { commit_sha := "", name := "", timestamp := "", build_info := "" }

/-- `SoftwareOptions` (crates/manager_model/src/manager.rs). -/
inductive SoftwareOptions where
  | Manager
  | Backend
deriving DecidableEq, Repr

/-- State touched by `UpdateManager` for one software kind: the parsed
contents of the files in `storage_dir/update/` for that kind (`none`
models an absent file), the binary at the configured install target
and its `.old` sibling, the backend data directory and its `-old`
sibling, and the `REBOOT_ON_NEXT_CHECK` latch. -/
structure UpdateState where
  json : Option BuildInfo
  installedJson : Option BuildInfo
  installedOldJson : Option BuildInfo
  gpgFile : Option String
  binaryFile : Option String
  targetFile : Option String
  targetOldFile : Option String
  dataDir : Option String
  dataDirOld : Option String
  rebootOnNextCheck : Bool
deriving DecidableEq, Repr

/-- Observed results of the external interactions of one
`update_software` run: the peer responses and the exit statuses of the
subprocesses it spawns. -/
structure UpdateEnv where
  infoFetchOk : Bool
  latestInfo : BuildInfo
  downloadOk : Bool
  encryptedBinary : String
  importKeyOk : Bool
  decryptOk : Bool
  decryptedBinary : String
  chmodOk : Bool
  resetDirConfigured : Bool
  rebootSendOk : Bool
deriving DecidableEq, Repr

/-- Side effects of the update pipeline, in the order the code
performs them. -/
inductive UpdateEffect where
  | downloadBinary
  | writeGpgFile
  | importKey
  | removeOldDecrypted
  | decryptBinary
  | writeLatestJson
  | renameInstalledJson
  | renameTarget
  | copyBinaryToTarget
  | chmodTarget
  | writeInstalledJson
  | removeOldDataDir
  | renameDataDir
  | storeRebootOnNextCheck
  | sendRebootNow
deriving DecidableEq, Repr

/-- `read_latest_build_info` (update.rs lines 279-288 with 302-316):
the parsed `update/<name>.json`, or the empty `BuildInfo` when the
file does not exist. -/
def read_latest_build_info (s : UpdateState) : BuildInfo :=
  s.json.getD BuildInfo.empty

/-- `read_latest_installed_build_info` (update.rs lines 290-300 with
302-316): the parsed `update/<name>.json.installed`, or the empty
`BuildInfo` when the file does not exist. -/
def read_latest_installed_build_info (s : UpdateState) : BuildInfo :=
  s.installedJson.getD BuildInfo.empty

/-- `download_and_decrypt_latest_software` (update.rs lines 318-348):
download the encrypted binary from the peer, write it to
`update/<name>.gpg`, import the signing public key, decrypt (removing
any previous decrypted binary first), and write `latest` to
`update/<name>.json`. -/
def download_and_decrypt_latest_software (env : UpdateEnv)
    (latest : BuildInfo) (s : UpdateState) :
    Option (UpdateState × List UpdateEffect) :=
  if env.downloadOk then
    if env.importKeyOk then
      if env.decryptOk then
        some ({ s with gpgFile := some env.encryptedBinary,
                       binaryFile := some env.decryptedBinary,
                       json := some latest },
          [UpdateEffect.downloadBinary, UpdateEffect.writeGpgFile,
            UpdateEffect.importKey]
          ++ (if s.binaryFile.isSome then [UpdateEffect.removeOldDecrypted]
              else [])
          ++ [UpdateEffect.decryptBinary, UpdateEffect.writeLatestJson])
      else none
    else none
  else none

/-- Lines 364-371 of `install_latest_software`: when
`update/<name>.json.installed` exists, rename it to
`update/<name>.json.installed.old`. -/
def rename_installed_build_info (s : UpdateState) :
    UpdateState × List UpdateEffect :=
  if s.installedJson.isSome then
    ({ s with installedOldJson := s.installedJson, installedJson := none },
      [UpdateEffect.renameInstalledJson])
  else (s, [])

/-- Lines 495-499 of `replace_binary`: when the configured install
target exists, rename it aside (to the target path with its extension
set to `old`) before the copy. -/
def rename_install_target (s : UpdateState) :
    UpdateState × List UpdateEffect :=
  if s.targetFile.isSome then
    ({ s with targetOldFile := s.targetFile, targetFile := none },
      [UpdateEffect.renameTarget])
  else (s, [])

/-- `replace_binary` (update.rs lines 485-517): rename an existing
install target aside, then copy the decrypted binary from the update
directory over the target (failing when the source is missing) and
`chmod u+x` it. -/
def replace_binary (env : UpdateEnv) (s : UpdateState) :
    Option (UpdateState × List UpdateEffect) :=
  match (rename_install_target s).1.binaryFile with
  | none => none
  | some bytes =>
    if env.chmodOk then
      some ({ (rename_install_target s).1 with targetFile := some bytes },
        (rename_install_target s).2 ++ [UpdateEffect.copyBinaryToTarget,
          UpdateEffect.chmodTarget])
    else none

/-- `reset_data` (update.rs lines 519-567): a no-op unless the
software is the backend and a data-reset directory is configured;
otherwise fail when the configured directory is missing, else remove
a stale `-old` directory if present and rename the data directory to
`-old`. -/
def reset_data (env : UpdateEnv) (software : SoftwareOptions)
    (s : UpdateState) : Option (UpdateState × List UpdateEffect) :=
  if software ≠ SoftwareOptions.Backend then some (s, [])
  else if env.resetDirConfigured then
    match s.dataDir with
    | none => none
    | some dir =>
      some ({ s with dataDir := none, dataDirOld := some dir },
        (if s.dataDirOld.isSome then [UpdateEffect.removeOldDataDir] else [])
        ++ [UpdateEffect.renameDataDir])
  else some (s, [])

/-- `install_latest_software` (update.rs lines 350-400): rotate the
installed record, replace the binary, write `latest` to
`update/<name>.json.installed`, optionally reset the backend data,
store `true` into `REBOOT_ON_NEXT_CHECK`, and submit `RebootNow` when
`force_reboot` is set. -/
def install_latest_software (env : UpdateEnv) (latest : BuildInfo)
    (force_reboot : Bool) (reset_data_requested : Bool)
    (software : SoftwareOptions) (s : UpdateState) :
    Option (UpdateState × List UpdateEffect) :=
  (replace_binary env (rename_installed_build_info s).1).bind fun rb =>
    (if reset_data_requested then
        reset_data env software { rb.1 with installedJson := some latest }
      else some ({ rb.1 with installedJson := some latest }, [])).bind fun rd =>
      if force_reboot then
        if env.rebootSendOk then
          some ({ rd.1 with rebootOnNextCheck := true },
            (rename_installed_build_info s).2 ++ rb.2
              ++ [UpdateEffect.writeInstalledJson] ++ rd.2
              ++ [UpdateEffect.storeRebootOnNextCheck,
                  UpdateEffect.sendRebootNow])
        else none
      else
        some ({ rd.1 with rebootOnNextCheck := true },
          (rename_installed_build_info s).2 ++ rb.2
            ++ [UpdateEffect.writeInstalledJson] ++ rd.2
            ++ [UpdateEffect.storeRebootOnNextCheck])

/-- `update_software` (update.rs lines 402-437): read the current
record, fetch the latest `BuildInfo` from the peer, download and
decrypt when they differ, then read the installed record and install
when it differs from the latest. -/
def update_software (env : UpdateEnv) (force_reboot : Bool)
    (reset_data_requested : Bool) (software : SoftwareOptions)
    (s : UpdateState) : Option (UpdateState × List UpdateEffect) :=
  if env.infoFetchOk then
    ((if read_latest_build_info s ≠ env.latestInfo then
        download_and_decrypt_latest_software env env.latestInfo s
      else some (s, [])).bind fun dd =>
      if env.latestInfo ≠ read_latest_installed_build_info dd.1 then
        (install_latest_software env env.latestInfo force_reboot
            reset_data_requested software dd.1).map fun ins =>
          (ins.1, dd.2 ++ ins.2)
      else some (dd.1, dd.2))
  else none

/-- A fresh-install scenario used by the update witnesses: empty
update directory, peer serving one backend build, all subprocesses
succeeding. -/
def sampleUpdateEnv : UpdateEnv :=
  { infoFetchOk := true, latestInfo := ⟨"abc", "backend", "T1", "bi"⟩,
    downloadOk := true, encryptedBinary := "enc", importKeyOk := true,
    decryptOk := true, decryptedBinary := "bin", chmodOk := true,
    resetDirConfigured := false, rebootSendOk := true }

/-- Empty update directory, no installed backend, latch clear. -/
def sampleFreshState : UpdateState :=
  { json := none, installedJson := none, installedOldJson := none,
    gpgFile := none, binaryFile := none, targetFile := none,
    targetOldFile := none, dataDir := none, dataDirOld := none,
    rebootOnNextCheck := false }

/-- The state `update_software` produces from `sampleFreshState`
under `sampleUpdateEnv`. -/
def sampleUpdatedState : UpdateState :=
  { json := some ⟨"abc", "backend", "T1", "bi"⟩,
    installedJson := some ⟨"abc", "backend", "T1", "bi"⟩,
    installedOldJson := none, gpgFile := some "enc",
    binaryFile := some "bin", targetFile := some "bin",
    targetOldFile := none, dataDir := none, dataDirOld := none,
    rebootOnNextCheck := true }

/-- The effect trace of that run. -/
def sampleUpdateTrace : List UpdateEffect :=
  [UpdateEffect.downloadBinary, UpdateEffect.writeGpgFile,
   UpdateEffect.importKey, UpdateEffect.decryptBinary,
   UpdateEffect.writeLatestJson, UpdateEffect.copyBinaryToTarget,
   UpdateEffect.chmodTarget, UpdateEffect.writeInstalledJson,
   UpdateEffect.storeRebootOnNextCheck]

/-- Contents of `build/latest/` for one binary, together with the
`build/history/` archive entries (`src/server/build.rs`).  `history`
holds the names of the per-build archive directories. -/
structure BuildState where
  latestJson : Option BuildInfo
  latestBinary : Option String
  latestGpg : Option String
  history : List String
deriving DecidableEq, Repr

/-- Observed results of the external interactions of one
`git_refresh_if_needed` run: configuration presence, subprocess exit
statuses and captured outputs. -/
structure BuildEnv where
  downloadKeyConfigured : Bool
  downloadKeyValid : Bool
  repoExists : Bool
  cloneOk : Bool
  pullOk : Bool
  headSha : String
  preBuildConfigured : Bool
  preBuildOk : Bool
  cargoOk : Bool
  buildInfoOk : Bool
  buildInfoOutput : String
  signOk : Bool
  binaryBytes : String
  signedBytes : String
  repositoryName : String
  timestamp : String
deriving DecidableEq, Repr

/-- Side effects of the build pipeline, in the order the code
performs them. -/
inductive BuildEffect where
  | gitClone
  | gitPull
  | preBuildScript
  | cargoBuild
  | publish
deriving DecidableEq, Repr

/-- `get_latest_build_commit_sha` (build.rs lines 407-429): the
`commit_sha` recorded in `latest/<binary>.json`, or the empty string
when the file does not exist. -/
def get_latest_build_commit_sha (s : BuildState) : String :=
  (s.latestJson.map BuildInfo.commit_sha).getD ""

/-- `copy_and_sign_binary` (build.rs lines 506-608): archive the
binary, its signed-and-encrypted form and the new `BuildInfo` under
`history/<name>-<timestamp>/`, then copy all three into `latest/`.
The GPG keyring check/generation and the sign-and-encrypt invocation
are folded into `signOk`. -/
def copy_and_sign_binary (env : BuildEnv) (s : BuildState) :
    Option (BuildState × List BuildEffect) :=
  if env.signOk then
    some ({ latestJson := some { commit_sha := env.headSha,
                                 name := env.repositoryName,
                                 timestamp := env.timestamp,
                                 build_info := env.buildInfoOutput },
            latestBinary := some env.binaryBytes,
            latestGpg := some env.signedBytes,
            history := s.history
              ++ [env.repositoryName ++ "-" ++ env.timestamp] },
      [BuildEffect.publish])
  else none

/-- `git_refresh_if_needed` (build.rs lines 270-318): validate the
configured download key path, clone when the repository directory is
missing, pull, then compare the SHA recorded in `latest/<binary>.json`
with `git rev-parse HEAD` — equality finishes successfully right
away; otherwise run the configured pre-build script, `cargo build`,
capture `--build-info`, and publish. -/
def git_refresh_if_needed (env : BuildEnv) (s : BuildState) :
    Option (BuildState × List BuildEffect) :=
  if env.downloadKeyConfigured ∧ env.downloadKeyValid = false then none
  else
    ((if env.repoExists then some ([] : List BuildEffect)
      else if env.cloneOk then some [BuildEffect.gitClone] else none).bind
      fun trClone =>
      if env.pullOk then
        if get_latest_build_commit_sha s = env.headSha then
          some (s, trClone ++ [BuildEffect.gitPull])
        else
          ((if env.preBuildConfigured then
              (if env.preBuildOk then some [BuildEffect.preBuildScript]
               else none)
            else some ([] : List BuildEffect)).bind fun trPre =>
            if env.cargoOk ∧ env.buildInfoOk then
              (copy_and_sign_binary env s).map fun pb =>
                (pb.1, trClone ++ [BuildEffect.gitPull] ++ trPre
                  ++ [BuildEffect.cargoBuild] ++ pb.2)
            else none)
      else none)

/-- Rust `Path::file_stem` on a file name: the portion before the
extension, where the extension is what follows the last `.` — unless
there is no `.` at all, or the only `.` is the leading character of
the name (hidden files), in which case the whole name is the stem. -/
def rust_file_stem (name : String) : String :=
  match (name.data.reverse).dropWhile (fun c => !(c = '.')) with
  | '.' :: stemRev =>
    if stemRev.isEmpty then name else String.mk stemRev.reverse
  | _ => name

/-- Rust `Path::with_extension("old")` on a file name: the stem with
the extension replaced by `old`. -/
def with_extension_old (name : String) : String :=
  rust_file_stem name ++ ".old"

/-- Destination of the rename in `replace_binary` (update.rs lines
495-499), for an install target split into directory and file name:
`target.with_extension("old")` rewrites only the file name, keeping
the parent directory. -/
def replace_binary_backup_path (dir fileName : String) : String × String :=
  (dir, with_extension_old fileName)

/-! ### Theorems: the claims checked against the embedding -/

/-- C1: the slot of an in-progress command channel holds at most one
message at any instant; while the receiver still holds its owning guard
over the slot (a previously submitted command has not reached
end-of-handling), every further submit on the channel fails fast
without placing a message and without any other state change; and
dropping the receiver's guard empties the slot, so the slot is observed
free again exactly when handling ends. -/
theorem inprogress_channel_at_most_one_in_flight
    (s : ChannelState Nat) (message : Nat) (hg : s.guardHeld = true) :
    slotMessages s ≤ 1
    ∧ (send_message s message).1 =
        Except.error InProgressCmdChannelError.AlreadyLocked
    ∧ (send_message s message).2 = s
    ∧ (dropContainer s).slot = none := by
  refine ⟨?_, ?_, ?_, rfl⟩
  · cases hs : s.slot <;> simp [slotMessages, hs]
  · simp [send_message, hg]
  · simp [send_message, hg]

/-- Witness for C1 at a concrete channel state with the guard held. -/
theorem inprogress_channel_at_most_one_in_flight_witness :
    slotMessages (⟨some 5, true, 0, true⟩ : ChannelState Nat) ≤ 1
    ∧ (send_message (⟨some 5, true, 0, true⟩ : ChannelState Nat) 7).1 =
        Except.error InProgressCmdChannelError.AlreadyLocked
    ∧ (send_message (⟨some 5, true, 0, true⟩ : ChannelState Nat) 7).2 =
        (⟨some 5, true, 0, true⟩ : ChannelState Nat)
    ∧ (dropContainer (⟨some 5, true, 0, true⟩ : ChannelState Nat)).slot = none :=
  inprogress_channel_at_most_one_in_flight ⟨some 5, true, 0, true⟩ 7 rfl

/-- C5 counterexample: on a channel whose receiver has been dropped and
whose slot is empty, `send_message` fails with `ChannelBroken` (the
`Closed` error) yet the slot contents change from `none` to the
submitted message — refuting "in every failing case the slot contents
are left unchanged (a failed submit places no message)". -/
theorem send_message_failed_submit_places_message_cex :
    (send_message (⟨none, false, 0, false⟩ : ChannelState Nat) 7).1 =
      Except.error InProgressCmdChannelError.ChannelBroken
    ∧ (send_message (⟨none, false, 0, false⟩ : ChannelState Nat) 7).2.slot ≠
      (⟨none, false, 0, false⟩ : ChannelState Nat).slot := by
  constructor
  · rfl
  · simp [send_message]

/-- C5 (amended): for every call to `send_message` with the guard not
held: if the slot is occupied it fails with `CommandInProgress`
(`AlreadyBusy`) leaving the state unchanged; if the slot is free and the
receiver is alive it places the message in the slot and posts exactly
one wake signal; if the slot is free but the receiver has been dropped
it fails with `ChannelBroken` (`Closed`) — the receiver check happens
only after the message has been placed, so this failure leaves the
message in the slot. -/
theorem send_message_cases (s : ChannelState Nat) (message : Nat)
    (hg : s.guardHeld = false) :
    (s.slot.isSome = true → send_message s message =
      (Except.error InProgressCmdChannelError.CommandInProgress, s))
    ∧ (s.slot = none → s.receiverAlive = true → send_message s message =
        (Except.ok (), { s with slot := some message,
                                notifySignals := s.notifySignals + 1 }))
    ∧ (s.slot = none → s.receiverAlive = false → send_message s message =
        (Except.error InProgressCmdChannelError.ChannelBroken,
         { s with slot := some message })) := by
  refine ⟨?_, ?_, ?_⟩
  · intro hs
    simp [send_message, hg, hs]
  · intro hs hr
    simp [send_message, hg, hs, hr]
  · intro hs hr
    simp [send_message, hg, hs, hr]

/-- Witness for C5 (amended) on a fresh channel: submitting succeeds
and posts exactly one wake signal. -/
theorem send_message_cases_witness :
    send_message (⟨none, false, 0, true⟩ : ChannelState Nat) 7 =
      (Except.ok (), (⟨some 7, false, 1, true⟩ : ChannelState Nat)) :=
  (send_message_cases ⟨none, false, 0, true⟩ 7 rfl).2.1 rfl rfl

/-- C4: processing a request carrying a mismatched `x-api-key` value
sets the `ApiLock` (and answers 423); once it is set, every subsequent
request presenting a key value — the correct configured key included —
yields the locked (423) response; and no request ever clears the lock
within one process lifetime. -/
theorem api_lock_latches (configKey guessed later : String)
    (hk : configKey ≠ guessed) :
    (authenticate_with_api_key configKey false (some (some guessed))).2 = true
    ∧ (authenticate_with_api_key configKey false (some (some guessed))).1 =
        AuthOutcome.locked
    ∧ (authenticate_with_api_key configKey true (some (some later))).1 =
        AuthOutcome.locked
    ∧ (authenticate_with_api_key configKey true
        (some (some configKey))).1 = AuthOutcome.locked
    ∧ ∀ header : Option (Option String),
        (authenticate_with_api_key configKey true header).2 = true := by
  refine ⟨?_, ?_, rfl, rfl, ?_⟩
  · simp [authenticate_with_api_key, hk]
  · simp [authenticate_with_api_key, hk]
  · intro header
    match header with
    | none => rfl
    | some none => rfl
    | some (some keyStr) => simp [authenticate_with_api_key]

/-- Witness for C4: with configured key `"secret"`, the guess
`"guess"` locks the API and the correct key is then refused. -/
theorem api_lock_latches_witness :
    (authenticate_with_api_key "secret" false (some (some "guess"))).2 = true
    ∧ (authenticate_with_api_key "secret" false (some (some "guess"))).1 =
        AuthOutcome.locked
    ∧ (authenticate_with_api_key "secret" true (some (some "wrong"))).1 =
        AuthOutcome.locked
    ∧ (authenticate_with_api_key "secret" true (some (some "secret"))).1 =
        AuthOutcome.locked
    ∧ ∀ header : Option (Option String),
        (authenticate_with_api_key "secret" true header).2 = true :=
  api_lock_latches "secret" "guess" "wrong" (by decide)

/-- C10: a request whose `x-api-key` header is missing or not
decodable as a string receives 400 Bad Request, whatever the lock
value — the header check precedes the lock check, so such requests
never observe the locked (423) response. -/
theorem missing_api_key_header_yields_bad_request
    (configKey : String) (lock : Bool) :
    (authenticate_with_api_key configKey lock none).1 = AuthOutcome.badRequest
    ∧ (authenticate_with_api_key configKey lock (some none)).1 =
        AuthOutcome.badRequest
    ∧ (authenticate_with_api_key configKey lock none).1 ≠ AuthOutcome.locked
    ∧ (authenticate_with_api_key configKey lock (some none)).1 ≠
        AuthOutcome.locked :=
  ⟨rfl, rfl, by simp [authenticate_with_api_key],
    by simp [authenticate_with_api_key]⟩

/-- C3: when the reboot scheduler is about to invoke `sudo reboot`
under mount mode `MountedWithRemoteKey`, it first fetches the data
encryption key from the remote key provider; if that fetch fails the
reboot command is not invoked in that attempt and the
`REBOOT_ON_NEXT_CHECK` latch keeps its value — in particular a set
latch remains set, so a later attempt retries; and every mount mode
other than `MountedWithRemoteKey` bypasses the key-availability
check. -/
theorem reboot_key_availability_interlock (env : RebootEnv) (s : RebootState) :
    (env.mountMode = MountMode.MountedWithRemoteKey →
      (run_reboot env s).1.keyFetchAttempted = true
      ∧ (env.keyFetchSucceeds = false →
          (run_reboot env s).1.rebootInvoked = false
          ∧ (run_reboot env s).2 = s
          ∧ (s.rebootOnNextCheck = true →
              (run_reboot env s).2.rebootOnNextCheck = true)))
    ∧ (env.mountMode ≠ MountMode.MountedWithRemoteKey →
        (run_reboot env s).1.keyFetchAttempted = false) := by
  constructor
  · intro hm
    constructor
    · cases hf : env.keyFetchSucceeds <;> simp [run_reboot, hm, hf]
    · intro hf
      refine ⟨?_, ?_, ?_⟩ <;> simp [run_reboot, hm, hf]
  · intro hm
    cases he : env.mountMode
    case MountedWithRemoteKey => exact absurd he hm
    all_goals simp [run_reboot, he]

/-- Witness for C3: under remote-key mode with an unreachable key
provider, the reboot is not invoked and a set latch stays set; under
local-key mode the key fetch is skipped. -/
theorem reboot_key_availability_interlock_witness :
    ((run_reboot ⟨MountMode.MountedWithRemoteKey, false, true⟩
        ⟨true⟩).1.rebootInvoked = false
      ∧ (run_reboot ⟨MountMode.MountedWithRemoteKey, false, true⟩
          ⟨true⟩).2.rebootOnNextCheck = true)
    ∧ (run_reboot ⟨MountMode.MountedWithLocalKey, false, true⟩
        ⟨false⟩).1.keyFetchAttempted = false := by
  constructor
  · have h := (reboot_key_availability_interlock
        ⟨MountMode.MountedWithRemoteKey, false, true⟩ ⟨true⟩).1 rfl
    exact ⟨(h.2 rfl).1, (h.2 rfl).2.2 rfl⟩
  · exact (reboot_key_availability_interlock
        ⟨MountMode.MountedWithLocalKey, false, true⟩ ⟨false⟩).2 (by simp)

/-- `parse_i8_digits` on a single digit character. -/
theorem parse_i8_digits_one (c : Char) (v : Nat)
    (hv : charDigit c = some v) (hb : v ≤ 127) :
    parse_i8_digits [c] = some v := by
  simp [parse_i8_digits, hv, hb]

/-- `parse_i8_digits` on two digit characters. -/
theorem parse_i8_digits_two (c1 c2 : Char) (v1 v2 : Nat)
    (hc1 : charDigit c1 = some v1) (hc2 : charDigit c2 = some v2)
    (hb : v1 * 10 + v2 ≤ 127) :
    parse_i8_digits [c1, c2] = some (v1 * 10 + v2) := by
  simp [parse_i8_digits, hc1, hc2, hb]

/-- C9: for every well-formed `date +%z` output of the shape sign
character followed by four digits (`±HHMM`, digits being ASCII codes
48-57), the parsed UTC offset equals the two-digit hour value, negated
exactly when the sign character is `-`; the minute digits are
truncated (the result does not depend on the tail after the hour
digits). -/
theorem utc_offset_hours_only (sign d1 d2 : Char) (rest : List Char)
    (h1 : 48 ≤ d1.toNat ∧ d1.toNat ≤ 57)
    (h2 : 48 ≤ d2.toNat ∧ d2.toNat ≤ 57) :
    get_utc_offset_hours (sign :: d1 :: d2 :: rest) =
      some ((if sign = '-' then (-1 : Int) else 1) *
        ((10 * (d1.toNat - 48) + (d2.toNat - 48) : Nat) : Int)) := by
  have hv1 : charDigit d1 = some (d1.toNat - 48) := by
    simp [charDigit, h1.1, h1.2]
  have hv2 : charDigit d2 = some (d2.toNat - 48) := by
    simp [charDigit, h2.1, h2.2]
  have hb1 : d1.toNat - 48 ≤ 9 := by omega
  have hb2 : d2.toNat - 48 ≤ 9 := by omega
  have key : ((sign :: d1 :: d2 :: rest).drop 1).take 2 = [d1, d2] := rfl
  simp only [get_utc_offset_hours, List.head?_cons, key]
  by_cases e1 : d1 = '0'
  · have z1 : d1.toNat - 48 = 0 := by
      rw [e1]; rfl
    by_cases e2 : d2 = '0'
    · have z2 : d2.toNat - 48 = 0 := by
        rw [e2]; rfl
      simp [List.dropWhile, e1, e2, z1, z2]
    · simp only [List.dropWhile, e1, e2, decide_True, decide_False]
      rw [parse_i8_digits_one d2 (d2.toNat - 48) hv2 (by omega)]
      simp [z1, mul_comm]
  · simp only [List.dropWhile, e1, decide_False]
    rw [parse_i8_digits_two d1 d2 (d1.toNat - 48) (d2.toNat - 48) hv1 hv2
      (by omega)]
    have heq : (d1.toNat - 48) * 10 + (d2.toNat - 48) =
        10 * (d1.toNat - 48) + (d2.toNat - 48) := by
      omega
    simp [heq, mul_comm]

/-- Witness for C9: `+0530` parses to 5 hours and `+0000` parses to
0 hours. -/
theorem utc_offset_hours_only_witness :
    get_utc_offset_hours ('+' :: '0' :: '5' :: ['3', '0']) = some 5
    ∧ get_utc_offset_hours ('+' :: '0' :: '0' :: ['0', '0']) = some 0 := by
  constructor
  · rw [utc_offset_hours_only '+' '0' '5' ['3', '0'] (by decide) (by decide)]
    decide
  · rw [utc_offset_hours_only '+' '0' '0' ['0', '0'] (by decide) (by decide)]
    decide

/-- The rename of `rename_install_target` does not touch the staged
binary, the latest record, or the installed record. -/
theorem rename_install_target_fields (s : UpdateState) :
    (rename_install_target s).1.binaryFile = s.binaryFile
    ∧ (rename_install_target s).1.json = s.json
    ∧ (rename_install_target s).1.installedJson = s.installedJson := by
  unfold rename_install_target
  split <;> exact ⟨rfl, rfl, rfl⟩

/-- Rotating the installed record does not touch `update/<name>.json`. -/
theorem rename_installed_build_info_json (s : UpdateState) :
    (rename_installed_build_info s).1.json = s.json := by
  unfold rename_installed_build_info
  split <;> rfl

/-- On success, `download_and_decrypt_latest_software` leaves
`update/<name>.json` holding the fetched `latest` record and does not
touch the installed record. -/
theorem download_and_decrypt_state (env : UpdateEnv) (latest : BuildInfo)
    (s s1 : UpdateState) (tr : List UpdateEffect)
    (h : download_and_decrypt_latest_software env latest s = some (s1, tr)) :
    s1.json = some latest ∧ s1.installedJson = s.installedJson := by
  unfold download_and_decrypt_latest_software at h
  split at h
  · split at h
    · split at h
      · rw [Option.some.injEq, Prod.mk.injEq] at h
        obtain ⟨hs, -⟩ := h
        subst hs
        exact ⟨rfl, rfl⟩
      · exact Option.noConfusion h
    · exact Option.noConfusion h
  · exact Option.noConfusion h

/-- `replace_binary` touches only the install target files. -/
theorem replace_binary_preserves (env : UpdateEnv) (s s2 : UpdateState)
    (tr : List UpdateEffect) (h : replace_binary env s = some (s2, tr)) :
    s2.json = s.json ∧ s2.installedJson = s.installedJson := by
  obtain ⟨hb, hj, hi⟩ := rename_install_target_fields s
  unfold replace_binary at h
  rw [hb] at h
  split at h
  · exact Option.noConfusion h
  · split at h
    · rw [Option.some.injEq, Prod.mk.injEq] at h
      obtain ⟨hs, -⟩ := h
      subst hs
      exact ⟨hj, hi⟩
    · exact Option.noConfusion h

/-- `reset_data` touches only the backend data directories. -/
theorem reset_data_preserves (env : UpdateEnv) (software : SoftwareOptions)
    (s s1 : UpdateState) (tr : List UpdateEffect)
    (h : reset_data env software s = some (s1, tr)) :
    s1.json = s.json ∧ s1.installedJson = s.installedJson := by
  unfold reset_data at h
  split at h
  · rw [Option.some.injEq, Prod.mk.injEq] at h
    obtain ⟨hs, -⟩ := h
    subst hs
    exact ⟨rfl, rfl⟩
  · split at h
    · split at h
      · exact Option.noConfusion h
      · rw [Option.some.injEq, Prod.mk.injEq] at h
        obtain ⟨hs, -⟩ := h
        subst hs
        exact ⟨rfl, rfl⟩
    · rw [Option.some.injEq, Prod.mk.injEq] at h
      obtain ⟨hs, -⟩ := h
      subst hs
      exact ⟨rfl, rfl⟩

/-- On success, `install_latest_software` leaves
`update/<name>.json.installed` holding the `latest` record and does
not touch `update/<name>.json`. -/
theorem install_latest_software_state (env : UpdateEnv) (latest : BuildInfo)
    (force_reboot reset_requested : Bool) (software : SoftwareOptions)
    (s s2 : UpdateState) (tr : List UpdateEffect)
    (h : install_latest_software env latest force_reboot reset_requested
      software s = some (s2, tr)) :
    s2.installedJson = some latest ∧ s2.json = s.json := by
  unfold install_latest_software at h
  rw [Option.bind_eq_some] at h
  obtain ⟨rb, hrb, h⟩ := h
  obtain ⟨hj, hi⟩ := replace_binary_preserves _ _ _ _ hrb
  rw [Option.bind_eq_some] at h
  obtain ⟨rd, hrd, h⟩ := h
  have hrd2 : rd.1.json = rb.1.json ∧ rd.1.installedJson = some latest := by
    by_cases hr : reset_requested = true
    · rw [if_pos hr] at hrd
      obtain ⟨a, b⟩ := reset_data_preserves _ _ _ _ _ hrd
      exact ⟨a, b⟩
    · rw [if_neg hr, Option.some.injEq] at hrd
      rw [← hrd]
      exact ⟨rfl, rfl⟩
  have final : s2.json = rd.1.json ∧ s2.installedJson = rd.1.installedJson := by
    split at h
    · split at h
      · rw [Option.some.injEq, Prod.mk.injEq] at h
        obtain ⟨hs, -⟩ := h
        subst hs
        exact ⟨rfl, rfl⟩
      · exact Option.noConfusion h
    · rw [Option.some.injEq, Prod.mk.injEq] at h
      obtain ⟨hs, -⟩ := h
      subst hs
      exact ⟨rfl, rfl⟩
  refine ⟨?_, ?_⟩
  · rw [final.2, hrd2.2]
  · rw [final.1, hrd2.1, hj, rename_installed_build_info_json]

/-- On success, `update_software` leaves both `update/<name>.json`
and `update/<name>.json.installed` reading as the `BuildInfo` the peer
returned. -/
theorem update_software_success_reads (env : UpdateEnv)
    (force_reboot reset_requested : Bool) (software : SoftwareOptions)
    (s s2 : UpdateState) (tr : List UpdateEffect)
    (h : update_software env force_reboot reset_requested software s =
      some (s2, tr)) :
    read_latest_build_info s2 = env.latestInfo
    ∧ read_latest_installed_build_info s2 = env.latestInfo := by
  unfold update_software at h
  split at h
  · rw [Option.bind_eq_some] at h
    obtain ⟨dd, hdd, h⟩ := h
    have hjson : read_latest_build_info dd.1 = env.latestInfo := by
      by_cases hcur : read_latest_build_info s ≠ env.latestInfo
      · rw [if_pos hcur] at hdd
        obtain ⟨a, -⟩ := download_and_decrypt_state _ _ _ _ _ hdd
        unfold read_latest_build_info
        rw [a]
        rfl
      · rw [if_neg hcur, Option.some.injEq] at hdd
        rw [← hdd]
        exact not_not.mp hcur
    by_cases hins : env.latestInfo ≠ read_latest_installed_build_info dd.1
    · rw [if_pos hins, Option.map_eq_some'] at h
      obtain ⟨ins, hinst, heq⟩ := h
      obtain ⟨a, b⟩ := install_latest_software_state _ _ _ _ _ _ _ _ hinst
      rw [Prod.mk.injEq] at heq
      obtain ⟨h1, -⟩ := heq
      subst h1
      constructor
      · unfold read_latest_build_info at hjson ⊢
        rw [b]
        exact hjson
      · unfold read_latest_installed_build_info
        rw [a]
        rfl
    · rw [if_neg hins, Option.some.injEq] at h
      rw [Prod.mk.injEq] at h
      obtain ⟨h1, -⟩ := h
      subst h1
      exact ⟨hjson, (not_not.mp hins).symm⟩
  · exact Option.noConfusion h

/-- C2: for every software kind, after a call to `update_software`
that returns success, the `BuildInfo` stored at `update/<name>.json`
equals, in all four fields, the `BuildInfo` stored at
`update/<name>.json.installed` (files read with the empty-`BuildInfo`
sentinel for absence); both hold the record the peer returned. -/
theorem update_software_json_eq_installed (env : UpdateEnv)
    (force_reboot reset_requested : Bool) (software : SoftwareOptions)
    (s s2 : UpdateState) (tr : List UpdateEffect)
    (h : update_software env force_reboot reset_requested software s =
      some (s2, tr)) :
    read_latest_build_info s2 = read_latest_installed_build_info s2
    ∧ read_latest_build_info s2 = env.latestInfo := by
  obtain ⟨a, b⟩ := update_software_success_reads _ _ _ _ _ _ _ h
  exact ⟨a.trans b.symm, a⟩

/-- C6: running `update_software` twice in succession against an
unchanged upstream is idempotent — after a successful first run, the
second run observes `current = latest` and `latest = installed`, so it
skips download, decrypt and every install step, returns the state
unchanged and performs no side effects (its effect trace is empty). -/
theorem update_software_idempotent (env : UpdateEnv)
    (force_reboot reset_requested : Bool) (software : SoftwareOptions)
    (s s1 : UpdateState) (tr1 : List UpdateEffect)
    (h : update_software env force_reboot reset_requested software s =
      some (s1, tr1)) :
    read_latest_build_info s1 = env.latestInfo
    ∧ env.latestInfo = read_latest_installed_build_info s1
    ∧ update_software env force_reboot reset_requested software s1 =
        some (s1, []) := by
  obtain ⟨a, b⟩ := update_software_success_reads _ _ _ _ _ _ _ h
  have hinfo : env.infoFetchOk = true := by
    by_contra hni
    unfold update_software at h
    rw [if_neg hni] at h
    exact Option.noConfusion h
  refine ⟨a, b.symm, ?_⟩
  unfold update_software
  rw [if_pos hinfo, if_neg (not_not.mpr a), Option.some_bind]
  exact if_neg (fun hne => hne b.symm)

/-- Witness for C2 on the fresh-install scenario. -/
theorem update_software_json_eq_installed_witness :
    read_latest_build_info sampleUpdatedState =
      read_latest_installed_build_info sampleUpdatedState
    ∧ read_latest_build_info sampleUpdatedState =
        sampleUpdateEnv.latestInfo :=
  update_software_json_eq_installed sampleUpdateEnv false false
    SoftwareOptions.Backend sampleFreshState sampleUpdatedState
    sampleUpdateTrace (by decide)

/-- Witness for C6: re-running the fresh-install update is a no-op. -/
theorem update_software_idempotent_witness :
    read_latest_build_info sampleUpdatedState = sampleUpdateEnv.latestInfo
    ∧ sampleUpdateEnv.latestInfo =
        read_latest_installed_build_info sampleUpdatedState
    ∧ update_software sampleUpdateEnv false false SoftwareOptions.Backend
        sampleUpdatedState = some (sampleUpdatedState, []) :=
  update_software_idempotent sampleUpdateEnv false false
    SoftwareOptions.Backend sampleFreshState sampleUpdatedState
    sampleUpdateTrace (by decide)

/-- Dropping elements of a concatenation whose first part wholly
satisfies the predicate. -/
theorem dropWhile_append_of_all {α : Type} (p : α → Bool) (l1 l2 : List α)
    (h : ∀ c ∈ l1, p c = true) :
    (l1 ++ l2).dropWhile p = l2.dropWhile p := by
  induction l1 with
  | nil => rfl
  | cons a l ih =>
    have ha : p a = true := h a (List.mem_cons_self a l)
    rw [List.cons_append, List.dropWhile_cons, if_pos ha]
    exact ih (fun c hc => h c (List.mem_cons_of_mem a hc))

/-- A file name with no `.` after its first character is its own
stem. -/
theorem rust_file_stem_no_dot (name : String)
    (h : ∀ c ∈ name.data.drop 1, c ≠ '.') :
    rust_file_stem name = name := by
  unfold rust_file_stem
  cases hd : name.data with
  | nil => rfl
  | cons c0 cs =>
    have hall : ∀ c ∈ cs.reverse, (fun c => !(c = '.')) c = true := by
      intro c hc
      have hmem : c ∈ cs := List.mem_reverse.mp hc
      have hne : c ≠ '.' := by
        apply h
        rw [hd]
        exact hmem
      simp [hne]
    rw [List.reverse_cons, dropWhile_append_of_all _ _ _ hall]
    by_cases hc0 : c0 = '.'
    · subst hc0
      simp [List.dropWhile]
    · simp [List.dropWhile, hc0]

/-- C7: when the commit SHA recorded in `latest/<binary>.json` (taken
as the empty string when the file is absent) equals the repository
head SHA, the build finishes successfully right after the comparison:
the state — the `latest/` files and the `history/` entries — is
returned unchanged, and the effect trace (at most the clone and the
pull that precede the comparison) contains no pre-build script, no
compile, and no signing/publish step. -/
theorem build_no_new_commits_is_noop (env : BuildEnv) (s : BuildState)
    (hkey : ¬ (env.downloadKeyConfigured ∧ env.downloadKeyValid = false))
    (hclone : env.repoExists = true ∨ env.cloneOk = true)
    (hpull : env.pullOk = true)
    (hsha : get_latest_build_commit_sha s = env.headSha) :
    git_refresh_if_needed env s =
      some (s, (if env.repoExists then [] else [BuildEffect.gitClone])
        ++ [BuildEffect.gitPull])
    ∧ BuildEffect.preBuildScript ∉
        ((if env.repoExists then ([] : List BuildEffect)
          else [BuildEffect.gitClone]) ++ [BuildEffect.gitPull])
    ∧ BuildEffect.cargoBuild ∉
        ((if env.repoExists then ([] : List BuildEffect)
          else [BuildEffect.gitClone]) ++ [BuildEffect.gitPull])
    ∧ BuildEffect.publish ∉
        ((if env.repoExists then ([] : List BuildEffect)
          else [BuildEffect.gitClone]) ++ [BuildEffect.gitPull]) := by
  refine ⟨?_, ?_, ?_, ?_⟩
  · unfold git_refresh_if_needed
    rw [if_neg hkey]
    cases hre : env.repoExists
    · have hco : env.cloneOk = true := by
        cases hclone with
        | inl h => rw [h] at hre; exact Bool.noConfusion hre
        | inr h => exact h
      simp [hre, hco, hpull, hsha]
    · simp [hre, hpull, hsha]
  · cases hre : env.repoExists <;> simp
  · cases hre : env.repoExists <;> simp
  · cases hre : env.repoExists <;> simp

/-- Witness for C7: a build against an already-cloned repository whose
recorded latest SHA matches head is a successful no-op. -/
theorem build_no_new_commits_is_noop_witness :
    git_refresh_if_needed
      ⟨false, true, true, true, true, "abc", false, true, true, true,
        "bi", true, "bin", "sig", "backend", "T1"⟩
      ⟨some ⟨"abc", "backend", "T0", "bi0"⟩, some "b0", some "s0",
        ["backend-T0"]⟩ =
      some (⟨some ⟨"abc", "backend", "T0", "bi0"⟩, some "b0", some "s0",
        ["backend-T0"]⟩,
        (if (true : Bool) then [] else [BuildEffect.gitClone])
          ++ [BuildEffect.gitPull]) :=
  (build_no_new_commits_is_noop
    ⟨false, true, true, true, true, "abc", false, true, true, true,
      "bi", true, "bin", "sig", "backend", "T1"⟩
    ⟨some ⟨"abc", "backend", "T0", "bi0"⟩, some "b0", some "s0",
      ["backend-T0"]⟩
    (by decide) (Or.inl rfl) rfl (by decide)).1

/-- C8 counterexample: for the install target file name `backend.bin`,
the backup rename destination computed by `replace_binary` is
`backend.old`, not the claimed `backend.bin.old` — `with_extension`
replaces an existing extension instead of appending `.old`. -/
theorem replace_binary_backup_appends_suffix_cex :
    (replace_binary_backup_path "/opt/app" "backend.bin").2 = "backend.old"
    ∧ (replace_binary_backup_path "/opt/app" "backend.bin").2 ≠
      "backend.bin" ++ ".old" := by
  constructor
  · rfl
  · decide

/-- C8 (amended): during installation an existing install target is
renamed — before the new binary is copied into place — to the path in
the same directory whose file name is the target's file name with its
extension replaced by `old` (Rust `with_extension`); this equals
appending the suffix `.old` exactly when the file name has no `.`
after its first character.  The last conjunct checks the rename/copy
ordering and the renamed content on `replace_binary` itself. -/
theorem replace_binary_backup (dir fileName : String) (env : UpdateEnv)
    (s : UpdateState) :
    (replace_binary_backup_path dir fileName).1 = dir
    ∧ (replace_binary_backup_path dir fileName).2 =
        rust_file_stem fileName ++ ".old"
    ∧ ((∀ c ∈ fileName.data.drop 1, c ≠ '.') →
        (replace_binary_backup_path dir fileName).2 = fileName ++ ".old")
    ∧ (s.targetFile.isSome = true → env.chmodOk = true →
        ∀ bytes, s.binaryFile = some bytes →
          replace_binary env s = some
            ({ s with targetOldFile := s.targetFile,
                      targetFile := some bytes },
              [UpdateEffect.renameTarget, UpdateEffect.copyBinaryToTarget,
               UpdateEffect.chmodTarget])) := by
  refine ⟨rfl, rfl, ?_, ?_⟩
  · intro h
    unfold replace_binary_backup_path with_extension_old
    rw [rust_file_stem_no_dot fileName h]
  · intro ht hc bytes hb
    simp [replace_binary, rename_install_target, ht, hb, hc]

/-- Witness for C8 (amended): a dot-free target name gets `.old`
appended, and the concrete rename-then-copy run of `replace_binary`. -/
theorem replace_binary_backup_witness :
    (replace_binary_backup_path "/opt/app" "backend").2 =
      "backend" ++ ".old"
    ∧ replace_binary sampleUpdateEnv
        { json := none, installedJson := none, installedOldJson := none,
          gpgFile := none, binaryFile := some "newbin",
          targetFile := some "oldbin", targetOldFile := none,
          dataDir := none, dataDirOld := none, rebootOnNextCheck := false } =
      some ({ json := none, installedJson := none, installedOldJson := none,
              gpgFile := none, binaryFile := some "newbin",
              targetFile := some "newbin", targetOldFile := some "oldbin",
              dataDir := none, dataDirOld := none,
              rebootOnNextCheck := false },
        [UpdateEffect.renameTarget, UpdateEffect.copyBinaryToTarget,
         UpdateEffect.chmodTarget]) := by
  constructor
  · exact (replace_binary_backup "/opt/app" "backend" sampleUpdateEnv
      sampleFreshState).2.2.1 (by decide)
  · exact (replace_binary_backup "/opt/app" "backend" sampleUpdateEnv
      { json := none, installedJson := none, installedOldJson := none,
        gpgFile := none, binaryFile := some "newbin",
        targetFile := some "oldbin", targetOldFile := none,
        dataDir := none, dataDirOld := none,
        rebootOnNextCheck := false }).2.2.2 rfl rfl "newbin" rfl

end AppManager
